import Mathlib

/-!
Shallow embedding of the budget_tracker_be backend (budget/models.py,
budget/serializers.py, budget_tracker/budget/views.py).

Monetary values: every money field in the source is a Django
`DecimalField(max_digits=10, decimal_places=2)`, so every stored value is an
exact multiple of 0.01 and `Decimal` arithmetic on such values is exact.  We
embed money as an `Int` counting cents (hundredths); on this representation
Python's `round(x, 2)` is the identity, which `round2` records.

The database is embedded as a `Store` holding the transaction and budget rows
together with the next auto-assigned primary keys.  Each Django view method
becomes a Lean function from the request data and the store to a response and
the successor store; `datetime.today()` becomes an explicit `today : Date`
argument.
-/

/-- `CategoryType` from budget/models.py: the closed set of category codes. -/
inductive CategoryType
  | Food | Travel | Shopping | Necessities | Entertainment | Transportation
  | Insurance | Medical | Education | Gift | Investments | Other
deriving DecidableEq, Repr

/-- Users are identified by their primary key; the views only ever use
`request.user` as an owner key. -/
abbrev UserId := Nat

/-- A calendar date, as used by `datetime.today()` and `Transaction.date`. -/
structure Date where
  year : Nat
  month : Nat
  day : Nat
deriving DecidableEq, Repr

/-- The `Transaction` model row (budget/models.py).  `amount` is in cents;
`date` is auto-assigned at creation (`auto_now_add=True`). -/
structure Transaction where
  id : Nat
  user : UserId
  amount : Int
  category : CategoryType
  description : Option String
  date : Date
deriving DecidableEq, Repr

/-- The `Budget` model row (budget/models.py).  `amount` and `spent_amount`
are in cents. -/
structure Budget where
  id : Nat
  user : UserId
  amount : Int
  spent_amount : Int
  month : Nat
  year : Nat
deriving DecidableEq, Repr

/-- The database: all transaction rows, all budget rows, and the next
auto-assigned ids. -/
structure Store where
  transactions : List Transaction
  budgets : List Budget
  nextTransactionId : Nat
  nextBudgetId : Nat
deriving DecidableEq, Repr

/-- Python's `round(x, 2)` applied to a `Decimal` that is already an exact
multiple of 0.01 returns the value unchanged; on the cents representation it
is the identity. -/
def round2 (x : Int) : Int := x

/-- `DecimalField(max_digits=10, decimal_places=2)` admits values whose cent
count has at most 10 digits. -/
def amountValid (a : Int) : Bool := a.natAbs < 10 ^ 10

/-- The writable fields of `TransactionSerializer` (budget/serializers.py):
`amount`, `category`, `description`.  `id` and `date` are system-assigned and
`category_display` is read-only.  A `none` field is absent from the request
body (relevant for `partial=True` updates). -/
structure TransactionData where
  amount : Option Int
  category : Option CategoryType
  description : Option (Option String)
deriving DecidableEq, Repr

/-- Serializer validation for a create: `amount` is required and must fit the
decimal field; `category` defaults to `Other`; `description` is optional. -/
def TransactionData.isValidCreate (d : TransactionData) : Bool :=
  match d.amount with
  | some a => amountValid a
  | none => false

/-- Serializer validation for a `partial=True` update: any supplied `amount`
must fit the decimal field; every field may be absent. -/
def TransactionData.isValidUpdate (d : TransactionData) : Bool :=
  match d.amount with
  | some a => amountValid a
  | none => true

/-- `Transaction.objects.get(id=transaction_id, user=request.user)`:
the first row matching both the id and the owner. -/
def findTransaction (u : UserId) (tid : Nat) (ts : List Transaction) :
    Option Transaction :=
  ts.find? fun t => decide (t.id = tid ∧ t.user = u)

/-- `Budget.objects.get(user=u, month=m, year=y)` (also
`.filter(...).first()` in `BudgetView.post`): the first row matching the
owner and the period. -/
def findBudget (u : UserId) (month year : Nat) (bs : List Budget) :
    Option Budget :=
  bs.find? fun b => decide (b.user = u ∧ b.month = month ∧ b.year = year)

/-- `Budget.objects.get(id=budget_id, user=request.user)`. -/
def findBudgetById (u : UserId) (bid : Nat) (bs : List Budget) :
    Option Budget :=
  bs.find? fun b => decide (b.id = bid ∧ b.user = u)

/-- `budget.save()`: write the mutated row back over the row with its primary
key. -/
def saveBudget (b : Budget) (bs : List Budget) : List Budget :=
  bs.map fun b0 => if b0.id = b.id then b else b0

/-- `serializer.save()` on an existing transaction: write the mutated row
back over the row with its primary key. -/
def saveTransaction (t : Transaction) (ts : List Transaction) :
    List Transaction :=
  ts.map fun t0 => if t0.id = t.id then t else t0

/-- `transaction.delete()`: remove the row with this primary key. -/
def deleteTransactionRow (tid : Nat) (ts : List Transaction) :
    List Transaction :=
  ts.filter fun t => decide (t.id ≠ tid)

/-- `serializer.save()` with `partial=True`: overwrite exactly the supplied
fields (`date` is `auto_now_add` and not writable). -/
def applyUpdate (d : TransactionData) (t : Transaction) : Transaction :=
  { t with
    amount := d.amount.getD t.amount
    category := d.category.getD t.category
    description := match d.description with
      | some v => v
      | none => t.description }

/-- The row built by `serializer.save(user=request.user)` on a create:
system-assigned id, the caller as owner, today's date (`auto_now_add`), the
supplied fields with the model defaults for absent ones. -/
def newTransaction (today : Date) (u : UserId) (d : TransactionData)
    (s : Store) : Transaction :=
  { id := s.nextTransactionId
    user := u
    amount := d.amount.getD 0
    category := d.category.getD CategoryType.Other
    description := d.description.getD none
    date := today }

/-- Response of `TransactionView.get` with an id. -/
inductive TransactionGetResp
  | found (t : Transaction)
  | notFound
deriving DecidableEq, Repr

/-- Response of `TransactionView.post`: 201 with the spent/remaining
snapshot, 404 "No budget found for the current month.", or 400 serializer
errors. -/
inductive TransactionPostResp
  | created (tid : Nat) (spent remaining : Int)
  | noBudget
  | invalid
deriving DecidableEq, Repr

/-- Response of `TransactionView.put`. -/
inductive TransactionPutResp
  | ok (spent remaining : Int)
  | invalid
  | transactionNotFound
  | noBudget
deriving DecidableEq, Repr

/-- Response of `TransactionView.delete`. -/
inductive TransactionDeleteResp
  | ok (spent remaining : Int)
  | transactionNotFound
  | noBudget
deriving DecidableEq, Repr

/-- `TransactionView.get` with a `transaction_id` (views.py:38-48). -/
def TransactionView.getOne (u : UserId) (tid : Nat) (s : Store) :
    TransactionGetResp :=
  match findTransaction u tid s.transactions with
  | some t => .found t
  | none => .notFound

/-- `TransactionView.get` without an id (views.py:49-52):
`Transaction.objects.filter(user=request.user)`. -/
def TransactionView.list (u : UserId) (s : Store) : List Transaction :=
  s.transactions.filter fun t => decide (t.user = u)

/-- `TransactionView.post` (views.py:54-80).  The transaction is saved first;
only then is the current-period budget resolved, so a missing budget leaves
the already-persisted transaction in place. -/
def TransactionView.post (today : Date) (u : UserId) (d : TransactionData)
    (s : Store) : TransactionPostResp × Store :=
  if d.isValidCreate then
    let t : Transaction := newTransaction today u d s
    let s1 : Store :=
      { s with
        transactions := s.transactions ++ [t]
        nextTransactionId := s.nextTransactionId + 1 }
    match findBudget u today.month today.year s1.budgets with
    | none => (.noBudget, s1)
    | some b =>
      let b1 := { b with spent_amount := b.spent_amount + t.amount }
      (.created t.id (round2 b1.spent_amount)
        (round2 (b1.amount - b1.spent_amount)),
       { s1 with budgets := saveBudget b1 s1.budgets })
  else (.invalid, s)

/-- `TransactionView.put` (views.py:82-114).  The current-period budget is
resolved from wall-clock `today`, not from the transaction's own date.  The
in-memory rollback `budget.spent_amount -= transaction.amount` is only
persisted in the valid branch, where `budget.save()` runs. -/
def TransactionView.put (today : Date) (u : UserId) (tid : Nat)
    (d : TransactionData) (s : Store) : TransactionPutResp × Store :=
  match findTransaction u tid s.transactions with
  | none => (.transactionNotFound, s)
  | some t =>
    match findBudget u today.month today.year s.budgets with
    | none => (.noBudget, s)
    | some b =>
      if d.isValidUpdate then
        let t1 := applyUpdate d t
        let b1 := { b with spent_amount := b.spent_amount - t.amount + t1.amount }
        (.ok (round2 b1.spent_amount) (round2 (b1.amount - b1.spent_amount)),
         { s with
           transactions := saveTransaction t1 s.transactions
           budgets := saveBudget b1 s.budgets })
      else (.invalid, s)

/-- `TransactionView.delete` (views.py:116-140).  The budget lookup precedes
`transaction.delete()`, so a missing current-period budget aborts the delete
with the transaction untouched. -/
def TransactionView.delete (today : Date) (u : UserId) (tid : Nat)
    (s : Store) : TransactionDeleteResp × Store :=
  match findTransaction u tid s.transactions with
  | none => (.transactionNotFound, s)
  | some t =>
    match findBudget u today.month today.year s.budgets with
    | none => (.noBudget, s)
    | some b =>
      let b1 := { b with spent_amount := b.spent_amount - t.amount }
      (.ok (round2 b1.spent_amount) (round2 (b1.amount - b1.spent_amount)),
       { s with
         budgets := saveBudget b1 s.budgets
         transactions := deleteTransactionRow tid s.transactions })

/-- Response of `BudgetView.get` with an id. -/
inductive BudgetGetResp
  | found (b : Budget)
  | notFound
deriving DecidableEq, Repr

/-- Response of `BudgetView.post`: 201 with the new row, or 400
"Budget already exists for this month/year.". -/
inductive BudgetPostResp
  | created (b : Budget)
  | alreadyExists
deriving DecidableEq, Repr

/-- Response of `BudgetView.put`. -/
inductive BudgetPutResp
  | ok (b : Budget)
  | invalid
  | notFound
deriving DecidableEq, Repr

/-- Response of `BudgetView.delete`. -/
inductive BudgetDeleteResp
  | ok
  | notFound
deriving DecidableEq, Repr

/-- The writable fields of `BudgetSerializer` (budget/serializers.py):
`user`, `amount`, `month`, `year`; used with `partial=True` in
`BudgetView.put`. -/
structure BudgetData where
  user : Option UserId
  amount : Option Int
  month : Option Nat
  year : Option Nat
deriving DecidableEq, Repr

/-- Field validation for a partial budget update: a supplied `amount` fits
the decimal field, a supplied `month` fits `PositiveSmallIntegerField`, a
supplied `year` fits `PositiveIntegerField`. -/
def BudgetData.isValidUpdate (d : BudgetData) : Bool :=
  (match d.amount with | some a => amountValid a | none => true) &&
  (match d.month with | some m => m ≤ 32767 | none => true) &&
  (match d.year with | some y => y ≤ 2147483647 | none => true)

/-- `serializer.save()` with `partial=True` on a budget row. -/
def applyBudgetUpdate (d : BudgetData) (b : Budget) : Budget :=
  { b with
    user := d.user.getD b.user
    amount := d.amount.getD b.amount
    month := d.month.getD b.month
    year := d.year.getD b.year }

/-- `BudgetView.get` with a `budget_id` (views.py:149-159). -/
def BudgetView.getOne (u : UserId) (bid : Nat) (s : Store) : BudgetGetResp :=
  match findBudgetById u bid s.budgets with
  | some b => .found b
  | none => .notFound

/-- `BudgetView.post` (views.py:165-184): reject when a budget for
`(user, month, year)` already exists, otherwise create the row with
`spent_amount` at its default 0. -/
def BudgetView.post (u : UserId) (month year : Nat) (amount : Int)
    (s : Store) : BudgetPostResp × Store :=
  match findBudget u month year s.budgets with
  | some _ => (.alreadyExists, s)
  | none =>
    let b : Budget :=
      { id := s.nextBudgetId
        user := u
        amount := amount
        spent_amount := 0
        month := month
        year := year }
    (.created b,
     { s with
       budgets := s.budgets ++ [b]
       nextBudgetId := s.nextBudgetId + 1 })

/-- `BudgetView.put` (views.py:186-198). -/
def BudgetView.put (u : UserId) (bid : Nat) (d : BudgetData) (s : Store) :
    BudgetPutResp × Store :=
  match findBudgetById u bid s.budgets with
  | none => (.notFound, s)
  | some b =>
    if d.isValidUpdate then
      let b1 := applyBudgetUpdate d b
      (.ok b1, { s with budgets := saveBudget b1 s.budgets })
    else (.invalid, s)

/-- `BudgetView.delete` (views.py:200-209). -/
def BudgetView.delete (u : UserId) (bid : Nat) (s : Store) :
    BudgetDeleteResp × Store :=
  match findBudgetById u bid s.budgets with
  | none => (.notFound, s)
  | some b =>
    (.ok, { s with budgets := s.budgets.filter fun b0 => decide (b0.id ≠ b.id) })

/-- Response of `BudgetSummaryView.get`: 200 with the summary values, or 400
"Month and year must be integers.". -/
inductive BudgetSummaryResp
  | ok (month year budget_amount spent_amount remaining_amount : Int)
  | invalid
deriving DecidableEq, Repr

/-- The numeric value of a decimal digit character. -/
def digitVal? (c : Char) : Option Nat :=
  if c.isDigit then some (c.toNat - Char.toNat '0') else none

/-- A non-empty all-digit character list read as a natural numeral. -/
def parseNatDigits (cs : List Char) : Option Nat :=
  if cs.isEmpty then none
  else cs.foldl (fun acc c =>
    match acc, digitVal? c with
    | some n, some d => some (n * 10 + d)
    | _, _ => none) (some 0)

/-- Python's `int(str)` on a query parameter: an optional sign followed by
decimal digits; anything else raises `ValueError` (`none` here). -/
def pythonInt? (str : String) : Option Int :=
  match str.toList with
  | '-' :: cs => (parseNatDigits cs).map fun n => -(n : Int)
  | '+' :: cs => (parseNatDigits cs).map fun n => (n : Int)
  | cs => (parseNatDigits cs).map fun n => (n : Int)

/-- `int(request.query_params.get('month', datetime.today().month))`: an
absent parameter falls back to today's value; a present one must parse as an
integer. -/
def paramInt (dflt : Nat) : Option String → Option Int
  | none => some (dflt : Int)
  | some str => pythonInt? str

/-- `BudgetSummaryView.get` (views.py:217-245). -/
def BudgetSummaryView.get (today : Date) (u : UserId)
    (monthParam yearParam : Option String) (s : Store) : BudgetSummaryResp :=
  match paramInt today.month monthParam, paramInt today.year yearParam with
  | some m, some y =>
    match s.budgets.find? fun b =>
        decide (b.user = u ∧ (b.month : Int) = m ∧ (b.year : Int) = y) with
    | some b =>
      .ok m y (round2 b.amount) (round2 b.spent_amount)
        (round2 (b.amount - b.spent_amount))
    | none => .ok m y 0 0 0
  | _, _ => .invalid

/-- Response of `SpendingByCategoryView.get`: either the explicit
"No spending data available." marker or the list of per-category rows. -/
inductive SpendingByCategoryResp
  | noData
  | data (rows : List (CategoryType × Int))
deriving DecidableEq, Repr

/-- One step of the `category_spending[txn.category] += txn.amount` loop over
a `defaultdict(Decimal)`: add to the existing key, or append a fresh key at
the end (dict iteration order is insertion order). -/
def addToCategory (c : CategoryType) (a : Int) :
    List (CategoryType × Int) → List (CategoryType × Int)
  | [] => [(c, a)]
  | (c0, v) :: rest =>
    if c0 = c then (c0, v + a) :: rest else (c0, v) :: addToCategory c a rest

/-- The whole accumulation loop of `SpendingByCategoryView.get`. -/
def categorySpending (ts : List Transaction) : List (CategoryType × Int) :=
  ts.foldl (fun acc t => addToCategory t.category t.amount acc) []

/-- `Transaction.objects.filter(user=request.user, category__isnull=False)`:
the model's `category` column is non-nullable (`CharField` with a default),
so the null filter excludes nothing. -/
def userTransactions (u : UserId) (s : Store) : List Transaction :=
  s.transactions.filter fun t => decide (t.user = u)

/-- `SpendingByCategoryView.get` (views.py:253-269). -/
def SpendingByCategoryView.get (u : UserId) (s : Store) :
    SpendingByCategoryResp :=
  let ts := userTransactions u s
  if ts.isEmpty then .noData
  else .data ((categorySpending ts).map fun p => (p.1, round2 p.2))

/-- `TruncMonth('date')`: the (year, month) a transaction's date falls in. -/
def monthKey (t : Transaction) : Nat × Nat := (t.date.year, t.date.month)

/-- Chronological order on (year, month) keys, the `order_by('month')` of the
time-series query. -/
def keyLt (a b : Nat × Nat) : Prop :=
  a.1 < b.1 ∨ (a.1 = b.1 ∧ a.2 < b.2)

instance (a b : Nat × Nat) : Decidable (keyLt a b) := by
  unfold keyLt; exact inferInstance

/-- Insert a month key into a chronologically sorted duplicate-free key list,
keeping it sorted and duplicate-free (the `GROUP BY` plus `ORDER BY` of the
time-series query). -/
def insertMonthKey (k : Nat × Nat) :
    List (Nat × Nat) → List (Nat × Nat)
  | [] => [k]
  | k0 :: rest =>
    if k = k0 then k0 :: rest
    else if keyLt k k0 then k :: k0 :: rest
    else k0 :: insertMonthKey k rest

/-- The distinct month keys of a transaction list, in chronological order. -/
def monthKeys (ts : List Transaction) : List (Nat × Nat) :=
  ts.foldl (fun acc t => insertMonthKey (monthKey t) acc) []

/-- `Sum('amount')` over a group of transactions. -/
def sumAmounts (ts : List Transaction) : Int :=
  (ts.map fun t => t.amount).sum

/-- The grouped, summed and ordered rows of the time-series query, before
label formatting. -/
def totalExpensesRows (u : UserId) (s : Store) :
    List ((Nat × Nat) × Int) :=
  let ts := userTransactions u s
  (monthKeys ts).map fun k =>
    (k, sumAmounts (ts.filter fun t => decide (monthKey t = k)))

/-- Left-pad a numeral with zeros to a given width. -/
def padNum (w : Nat) (n : Nat) : String :=
  let str := toString n
  String.mk (List.replicate (w - str.length) '0') ++ str

/-- `strftime("%Y-%m")`. -/
def monthLabel (k : Nat × Nat) : String :=
  padNum 4 k.1 ++ "-" ++ padNum 2 k.2

/-- `TotalExpensesOverTimeAPIView.get` (views.py:277-298). -/
def TotalExpensesOverTimeAPIView.get (u : UserId) (s : Store) :
    List (String × Int) :=
  (totalExpensesRows u s).map fun r => (monthLabel r.1, r.2)

/-- The value an association list of category totals holds for a category
(0 when the category is absent, matching `defaultdict(Decimal)`). -/
def valueOf (c : CategoryType) (l : List (CategoryType × Int)) : Int :=
  ((l.find? fun p => decide (p.1 = c)).map Prod.snd).getD 0

/-- The sum of a user's transaction amounts in one category. -/
def categoryTotal (c : CategoryType) (ts : List Transaction) : Int :=
  sumAmounts (ts.filter fun t => decide (t.category = c))

/-!  Helper lemmas about the row-store primitives. -/

/-- Writing a row back over every row sharing its key moves `find?` to the
new row, provided the new row still satisfies the predicate and keeps the
found row's key. -/
theorem find?_replace {α : Type _} (p : α → Bool) (key : α → Nat) (x' a : α)
    (l : List α) (hf : l.find? p = some a) (hp : p x' = true)
    (hkey : key x' = key a) :
    (l.map fun z => if key z = key x' then x' else z).find? p = some x' := by
  induction l with
  | nil => simp at hf
  | cons x rest ih =>
    simp only [List.map_cons]
    by_cases hx : key x = key x'
    · rw [if_pos hx]
      exact List.find?_cons_of_pos _ hp
    · rw [if_neg hx]
      cases hpx : p x with
      | true =>
        rw [List.find?_cons_of_pos _ hpx] at hf
        have hxa : x = a := by injection hf
        exact absurd (hkey.trans (hxa ▸ rfl)).symm hx
      | false =>
        rw [List.find?_cons_of_neg _ (by simp [hpx])] at hf
        rw [List.find?_cons_of_neg _ (by simp [hpx])]
        exact ih hf

/-- `budget.save()` after mutating only `spent_amount` is seen by the next
period lookup: it returns the saved row. -/
theorem findBudget_saveBudget (u : UserId) (m y : Nat) (b b1 : Budget)
    (bs : List Budget) (hf : findBudget u m y bs = some b)
    (hid : b1.id = b.id) (hu : b1.user = b.user) (hm : b1.month = b.month)
    (hy : b1.year = b.year) :
    findBudget u m y (saveBudget b1 bs) = some b1 := by
  have hb : b.user = u ∧ b.month = m ∧ b.year = y := by
    have := List.find?_some hf
    simpa using this
  have hp : decide (b1.user = u ∧ b1.month = m ∧ b1.year = y) = true := by
    simp [hu, hm, hy, hb.1, hb.2.1, hb.2.2]
  exact find?_replace _ (fun z => z.id) b1 b bs hf hp hid

/-- `serializer.save()` on an updated transaction is seen by the next owner
lookup: it returns the saved row. -/
theorem findTransaction_saveTransaction (u : UserId) (tid : Nat)
    (t t1 : Transaction) (ts : List Transaction)
    (hf : findTransaction u tid ts = some t)
    (hid : t1.id = t.id) (hu : t1.user = t.user) :
    findTransaction u tid (saveTransaction t1 ts) = some t1 := by
  have ht : t.id = tid ∧ t.user = u := by
    have := List.find?_some hf
    simpa using this
  have hp : decide (t1.id = tid ∧ t1.user = u) = true := by
    simp [hid, hu, ht.1, ht.2]
  exact find?_replace _ (fun z => z.id) t1 t ts hf hp hid

/-- After `transaction.delete()` no lookup by that id succeeds. -/
theorem findTransaction_deleteRow (u : UserId) (tid : Nat)
    (ts : List Transaction) :
    findTransaction u tid (deleteTransactionRow tid ts) = none := by
  rw [findTransaction, List.find?_eq_none]
  intro t ht
  rw [deleteTransactionRow] at ht
  have := (List.mem_filter.mp ht).2
  simp only [decide_eq_true_eq] at this
  simp [this]

/-- C1: for every transaction create by a user with a budget for the current
wall-clock (month, year), the stored budget's `spent_amount` grows by exactly
the transaction's amount, and the response reports the new `spent_amount` and
`remaining = budgeted_amount - new spent_amount`, both via `round2`. -/
theorem C1_create_updates_current_budget
    (today : Date) (u : UserId) (d : TransactionData) (s : Store)
    (a : Int) (b : Budget)
    (hvalid : d.isValidCreate = true) (hamt : d.amount = some a)
    (hb : findBudget u today.month today.year s.budgets = some b) :
    (TransactionView.post today u d s).1 =
      TransactionPostResp.created s.nextTransactionId
        (round2 (b.spent_amount + a))
        (round2 (b.amount - (b.spent_amount + a))) ∧
    findBudget u today.month today.year
        (TransactionView.post today u d s).2.budgets =
      some { b with spent_amount := b.spent_amount + a } := by
  rw [TransactionView.post, if_pos hvalid]
  simp only [hamt, Option.getD_some, hb, newTransaction]
  exact ⟨trivial, findBudget_saveBudget u today.month today.year b _ s.budgets hb
    rfl rfl rfl rfl⟩

/-- C4: a valid transaction create with no current-period budget still
persists the transaction (readable and listed afterwards), signals the
missing budget, and leaves every budget row unchanged. -/
theorem C4_create_without_budget
    (today : Date) (u : UserId) (d : TransactionData) (s : Store) (a : Int)
    (hvalid : d.isValidCreate = true) (hamt : d.amount = some a)
    (hb : findBudget u today.month today.year s.budgets = none)
    (hfresh : ∀ t ∈ s.transactions, t.id ≠ s.nextTransactionId) :
    (TransactionView.post today u d s).1 = TransactionPostResp.noBudget ∧
    (TransactionView.post today u d s).2.budgets = s.budgets ∧
    (newTransaction today u d s).amount = a ∧
    TransactionView.getOne u s.nextTransactionId
        (TransactionView.post today u d s).2 =
      TransactionGetResp.found (newTransaction today u d s) ∧
    newTransaction today u d s ∈
      TransactionView.list u (TransactionView.post today u d s).2 := by
  have hpost : TransactionView.post today u d s =
      (TransactionPostResp.noBudget,
        { s with
            transactions := s.transactions ++ [newTransaction today u d s]
            nextTransactionId := s.nextTransactionId + 1 }) := by
    rw [TransactionView.post, if_pos hvalid]
    simp only [hb]
  have hnone : List.find?
      (fun t => decide (t.id = s.nextTransactionId ∧ t.user = u))
      s.transactions = none := by
    rw [List.find?_eq_none]
    intro t ht
    simp [hfresh t ht]
  have hfind : findTransaction u s.nextTransactionId
      (s.transactions ++ [newTransaction today u d s]) =
      some (newTransaction today u d s) := by
    rw [findTransaction, List.find?_append, hnone]
    simp [newTransaction]
  refine ⟨by rw [hpost], by rw [hpost], by simp [newTransaction, hamt],
    ?_, ?_⟩
  · rw [TransactionView.getOne, hpost]
    simp only [hfind]
  · rw [hpost, TransactionView.list]
    refine List.mem_filter.mpr ⟨by simp, by simp [newTransaction]⟩

/-- C5: once a budget exists for (user, month, year), a second create for the
same key is rejected whatever the amount, and the store (hence the existing
budget row) is unchanged. -/
theorem C5_duplicate_budget_rejected
    (u : UserId) (month year : Nat) (amount : Int) (s : Store) (b0 : Budget)
    (hb : findBudget u month year s.budgets = some b0) :
    BudgetView.post u month year amount s = (BudgetPostResp.alreadyExists, s) := by
  rw [BudgetView.post, hb]

/-- C10: a transaction update whose transaction and current-period budget
both exist but whose fields fail validation returns the validation error and
leaves the store untouched — the pre-validation in-memory rollback of the
budget is never persisted. -/
theorem C10_invalid_update_changes_nothing
    (today : Date) (u : UserId) (tid : Nat) (d : TransactionData) (s : Store)
    (t : Transaction) (b : Budget)
    (ht : findTransaction u tid s.transactions = some t)
    (hb : findBudget u today.month today.year s.budgets = some b)
    (hinvalid : d.isValidUpdate = false) :
    TransactionView.put today u tid d s = (TransactionPutResp.invalid, s) := by
  rw [TransactionView.put, ht, hb, hinvalid]
  simp

/-- C2: a transaction update resolves the budget of the wall-clock current
period (whatever the transaction's own date) and, when transaction, budget
and fields are all good, leaves `spent_amount = old_spent - old_amount +
new_amount` and stores the updated transaction; if the transaction or the
current-period budget is missing the operation reports NotFound and the store
is unchanged. -/
theorem C2_update_adjusts_current_budget
    (today : Date) (u : UserId) (tid : Nat) (d : TransactionData) (s : Store) :
    (∀ t b, findTransaction u tid s.transactions = some t →
      findBudget u today.month today.year s.budgets = some b →
      d.isValidUpdate = true →
      (TransactionView.put today u tid d s).1 =
        TransactionPutResp.ok
          (round2 (b.spent_amount - t.amount + (applyUpdate d t).amount))
          (round2 (b.amount -
            (b.spent_amount - t.amount + (applyUpdate d t).amount))) ∧
      findBudget u today.month today.year
          (TransactionView.put today u tid d s).2.budgets =
        some { b with spent_amount :=
          b.spent_amount - t.amount + (applyUpdate d t).amount } ∧
      findTransaction u tid
          (TransactionView.put today u tid d s).2.transactions =
        some (applyUpdate d t)) ∧
    (findTransaction u tid s.transactions = none →
      TransactionView.put today u tid d s =
        (TransactionPutResp.transactionNotFound, s)) ∧
    (∀ t, findTransaction u tid s.transactions = some t →
      findBudget u today.month today.year s.budgets = none →
      TransactionView.put today u tid d s = (TransactionPutResp.noBudget, s)) := by
  refine ⟨?_, ?_, ?_⟩
  · intro t b ht hb hval
    rw [TransactionView.put, ht, hb, hval]
    exact ⟨rfl,
      findBudget_saveBudget u today.month today.year b _ s.budgets hb
        rfl rfl rfl rfl,
      findTransaction_saveTransaction u tid t _ s.transactions ht rfl rfl⟩
  · intro ht
    rw [TransactionView.put, ht]
  · intro t ht hb
    rw [TransactionView.put, ht, hb]

/-- C3: a transaction delete with a current-period budget decreases that
budget's `spent_amount` by the transaction's amount and removes the
transaction from read and list; without a current-period budget it reports
NotFound, changes nothing, and the transaction stays readable. -/
theorem C3_delete_adjusts_current_budget
    (today : Date) (u : UserId) (tid : Nat) (s : Store) :
    (∀ t b, findTransaction u tid s.transactions = some t →
      findBudget u today.month today.year s.budgets = some b →
      (TransactionView.delete today u tid s).1 =
        TransactionDeleteResp.ok (round2 (b.spent_amount - t.amount))
          (round2 (b.amount - (b.spent_amount - t.amount))) ∧
      findBudget u today.month today.year
          (TransactionView.delete today u tid s).2.budgets =
        some { b with spent_amount := b.spent_amount - t.amount } ∧
      findTransaction u tid
          (TransactionView.delete today u tid s).2.transactions = none ∧
      ∀ t0 ∈ TransactionView.list u (TransactionView.delete today u tid s).2,
        t0.id ≠ tid) ∧
    (∀ t, findTransaction u tid s.transactions = some t →
      findBudget u today.month today.year s.budgets = none →
      TransactionView.delete today u tid s = (TransactionDeleteResp.noBudget, s) ∧
      TransactionView.getOne u tid (TransactionView.delete today u tid s).2 =
        TransactionGetResp.found t) := by
  refine ⟨?_, ?_⟩
  · intro t b ht hb
    rw [TransactionView.delete, ht, hb]
    refine ⟨rfl,
      findBudget_saveBudget u today.month today.year b _ s.budgets hb
        rfl rfl rfl rfl,
      findTransaction_deleteRow u tid s.transactions, ?_⟩
    intro t0 ht0
    rw [TransactionView.list] at ht0
    have h1 : t0 ∈ deleteTransactionRow tid s.transactions :=
      (List.mem_filter.mp ht0).1
    have h2 := (List.mem_filter.mp h1).2
    simpa using h2
  · intro t ht hb
    have heq : TransactionView.delete today u tid s =
        (TransactionDeleteResp.noBudget, s) := by
      rw [TransactionView.delete, ht, hb]
    refine ⟨heq, ?_⟩
    rw [TransactionView.getOne, heq]
    simp only [ht]

/-- C9: read, update and delete on a transaction or budget id that is not
owned by the caller — whether it belongs to another user or does not exist —
give exactly the NotFound outcome of an absent id and modify nothing. -/
theorem C9_cross_user_indistinguishable
    (today : Date) (u : UserId) (tid bid : Nat) (d : TransactionData)
    (bd : BudgetData) (s : Store) :
    ((∀ t ∈ s.transactions, t.id = tid → t.user ≠ u) →
      TransactionView.getOne u tid s = TransactionGetResp.notFound ∧
      TransactionView.put today u tid d s =
        (TransactionPutResp.transactionNotFound, s) ∧
      TransactionView.delete today u tid s =
        (TransactionDeleteResp.transactionNotFound, s)) ∧
    ((∀ b ∈ s.budgets, b.id = bid → b.user ≠ u) →
      BudgetView.getOne u bid s = BudgetGetResp.notFound ∧
      BudgetView.put u bid bd s = (BudgetPutResp.notFound, s) ∧
      BudgetView.delete u bid s = (BudgetDeleteResp.notFound, s)) := by
  refine ⟨?_, ?_⟩
  · intro h
    have hnone : findTransaction u tid s.transactions = none := by
      rw [findTransaction, List.find?_eq_none]
      intro t ht
      simp only [decide_eq_true_eq, not_and]
      intro hid
      exact h t ht hid
    exact ⟨by rw [TransactionView.getOne, hnone],
      by rw [TransactionView.put, hnone],
      by rw [TransactionView.delete, hnone]⟩
  · intro h
    have hnone : findBudgetById u bid s.budgets = none := by
      rw [findBudgetById, List.find?_eq_none]
      intro b hbmem
      simp only [decide_eq_true_eq, not_and]
      intro hid
      exact h b hbmem hid
    exact ⟨by rw [BudgetView.getOne, hnone],
      by rw [BudgetView.put, hnone],
      by rw [BudgetView.delete, hnone]⟩

/-- C6: the budget summary answers 400 exactly when a supplied month or year
fails integer parsing; with parseable (or defaulted) parameters it returns
the budget's rounded amounts with `remaining = amount - spent` when the
period's budget exists, and the all-zero triple with success otherwise. -/
theorem C6_summary_zero_fill_and_validation
    (today : Date) (u : UserId) (monthParam yearParam : Option String)
    (s : Store) :
    (BudgetSummaryView.get today u monthParam yearParam s =
        BudgetSummaryResp.invalid ↔
      paramInt today.month monthParam = none ∨
        paramInt today.year yearParam = none) ∧
    (∀ m y, paramInt today.month monthParam = some m →
      paramInt today.year yearParam = some y →
      (∀ b, s.budgets.find? (fun b =>
          decide (b.user = u ∧ (b.month : Int) = m ∧ (b.year : Int) = y)) =
          some b →
        BudgetSummaryView.get today u monthParam yearParam s =
          BudgetSummaryResp.ok m y (round2 b.amount) (round2 b.spent_amount)
            (round2 (b.amount - b.spent_amount))) ∧
      (s.budgets.find? (fun b =>
          decide (b.user = u ∧ (b.month : Int) = m ∧ (b.year : Int) = y)) =
          none →
        BudgetSummaryView.get today u monthParam yearParam s =
          BudgetSummaryResp.ok m y 0 0 0)) := by
  rcases hmm : paramInt today.month monthParam with _ | m' <;>
    rcases hyy : paramInt today.year yearParam with _ | y'
  · refine ⟨⟨fun _ => Or.inl rfl,
      fun _ => by rw [BudgetSummaryView.get, hmm, hyy]⟩, ?_⟩
    intro m y hm hy
    exact absurd hm (by simp)
  · refine ⟨⟨fun _ => Or.inl rfl,
      fun _ => by rw [BudgetSummaryView.get, hmm, hyy]⟩, ?_⟩
    intro m y hm hy
    exact absurd hm (by simp)
  · refine ⟨⟨fun _ => Or.inr rfl,
      fun _ => by rw [BudgetSummaryView.get, hmm, hyy]⟩, ?_⟩
    intro m y hm hy
    exact absurd hy (by simp)
  · have hval : BudgetSummaryView.get today u monthParam yearParam s =
        match s.budgets.find? (fun b =>
            decide (b.user = u ∧ (b.month : Int) = m' ∧ (b.year : Int) = y')) with
        | some b => BudgetSummaryResp.ok m' y' (round2 b.amount)
            (round2 b.spent_amount) (round2 (b.amount - b.spent_amount))
        | none => BudgetSummaryResp.ok m' y' 0 0 0 := by
      rw [BudgetSummaryView.get, hmm, hyy]
    refine ⟨⟨?_, ?_⟩, ?_⟩
    · intro hinv
      rw [hval] at hinv
      rcases hf : s.budgets.find? (fun b =>
          decide (b.user = u ∧ (b.month : Int) = m' ∧ (b.year : Int) = y')) with
        _ | b
      · rw [hf] at hinv
        simp at hinv
      · rw [hf] at hinv
        simp at hinv
    · intro hc
      rcases hc with hc | hc
      · exact absurd hc (by simp)
      · exact absurd hc (by simp)
    · intro m y hm hy
      obtain rfl : m' = m := by injection hm
      obtain rfl : y' = y := by injection hy
      constructor
      · intro b hf
        rw [hval, hf]
      · intro hf
        rw [hval, hf]

/-- Adding an amount into the per-category totals raises their overall sum by
exactly that amount. -/
theorem sum_addToCategory (c : CategoryType) (a : Int)
    (l : List (CategoryType × Int)) :
    ((addToCategory c a l).map Prod.snd).sum = a + (l.map Prod.snd).sum := by
  induction l with
  | nil => simp [addToCategory]
  | cons p rest ih =>
    obtain ⟨c0, v⟩ := p
    rw [addToCategory]
    by_cases h : c0 = c
    · rw [if_pos h]
      simp
      ring
    · rw [if_neg h]
      simp [ih]
      ring

/-- Running the accumulation loop over a transaction list raises the overall
sum of the per-category totals by the sum of the list's amounts. -/
theorem sum_categorySpending_loop (ts : List Transaction)
    (acc : List (CategoryType × Int)) :
    (((ts.foldl (fun acc t => addToCategory t.category t.amount acc)
        acc)).map Prod.snd).sum = (acc.map Prod.snd).sum + sumAmounts ts := by
  induction ts generalizing acc with
  | nil => simp [sumAmounts]
  | cons t rest ih =>
    rw [List.foldl_cons, ih, sum_addToCategory]
    simp [sumAmounts]
    ring

/-- The per-category totals of `categorySpending` sum to the total of all the
amounts. -/
theorem sum_categorySpending (ts : List Transaction) :
    ((categorySpending ts).map Prod.snd).sum = sumAmounts ts := by
  rw [categorySpending, sum_categorySpending_loop]
  simp

/-- The stored value under a head entry for the looked-up category. -/
theorem valueOf_cons_same (c : CategoryType) (v : Int)
    (l : List (CategoryType × Int)) :
    valueOf c ((c, v) :: l) = v := by
  simp [valueOf]

/-- The stored value skips a head entry for a different category. -/
theorem valueOf_cons_other (c c1 : CategoryType) (v : Int)
    (l : List (CategoryType × Int)) (h : c1 ≠ c) :
    valueOf c ((c1, v) :: l) = valueOf c l := by
  rw [valueOf, valueOf, List.find?_cons_of_neg _ (by simp [h])]

/-- Adding into a category raises that category's stored value by the added
amount. -/
theorem valueOf_addToCategory_same (c : CategoryType) (a : Int)
    (l : List (CategoryType × Int)) :
    valueOf c (addToCategory c a l) = valueOf c l + a := by
  induction l with
  | nil => simp [valueOf, addToCategory]
  | cons p rest ih =>
    obtain ⟨c0, v⟩ := p
    rw [addToCategory]
    by_cases h : c0 = c
    · subst h
      rw [if_pos rfl, valueOf_cons_same, valueOf_cons_same]
    · rw [if_neg h, valueOf_cons_other c c0 v _ h,
        valueOf_cons_other c c0 v _ h]
      exact ih

/-- Adding into one category leaves every other category's stored value
unchanged. -/
theorem valueOf_addToCategory_other (c c0 : CategoryType) (a : Int)
    (l : List (CategoryType × Int)) (hne : c ≠ c0) :
    valueOf c0 (addToCategory c a l) = valueOf c0 l := by
  induction l with
  | nil => rw [addToCategory, valueOf_cons_other c0 c a _ hne]
  | cons p rest ih =>
    obtain ⟨c1, v⟩ := p
    rw [addToCategory]
    by_cases h : c1 = c
    · subst h
      rw [if_pos rfl, valueOf_cons_other c0 c1 (v + a) _ hne,
        valueOf_cons_other c0 c1 v _ hne]
    · rw [if_neg h]
      by_cases h0 : c1 = c0
      · subst h0
        rw [valueOf_cons_same, valueOf_cons_same]
      · rw [valueOf_cons_other c0 c1 v _ h0, valueOf_cons_other c0 c1 v _ h0]
        exact ih

/-- After running the accumulation loop, each category's stored value has
grown by exactly the sum of that category's amounts in the processed list. -/
theorem valueOf_categorySpending_loop (ts : List Transaction)
    (acc : List (CategoryType × Int)) (c : CategoryType) :
    valueOf c (ts.foldl (fun acc t => addToCategory t.category t.amount acc)
        acc) = valueOf c acc + categoryTotal c ts := by
  induction ts generalizing acc with
  | nil => simp [categoryTotal, sumAmounts]
  | cons t rest ih =>
    rw [List.foldl_cons, ih]
    by_cases h : t.category = c
    · subst h
      rw [valueOf_addToCategory_same]
      rw [categoryTotal, categoryTotal, List.filter_cons_of_pos (by simp)]
      simp [sumAmounts]
      ring
    · rw [valueOf_addToCategory_other _ _ _ _ h]
      rw [categoryTotal, categoryTotal, List.filter_cons_of_neg (by simp [h])]

/-- The category keys produced by one accumulation step: unchanged when the
category was already present, appended at the end otherwise. -/
theorem keys_addToCategory (c : CategoryType) (a : Int)
    (l : List (CategoryType × Int)) :
    (addToCategory c a l).map Prod.fst =
      if c ∈ l.map Prod.fst then l.map Prod.fst else l.map Prod.fst ++ [c] := by
  induction l with
  | nil => simp [addToCategory]
  | cons p rest ih =>
    obtain ⟨c0, v⟩ := p
    rw [addToCategory]
    by_cases h : c0 = c
    · subst h
      rw [if_pos rfl]
      simp
    · rw [if_neg h]
      simp only [List.map_cons]
      by_cases hc : c ∈ rest.map Prod.fst
      · rw [ih, if_pos hc, if_pos (List.mem_cons.mpr (Or.inr hc))]
      · rw [ih, if_neg hc, if_neg (by
          intro hmem
          rcases List.mem_cons.mp hmem with h1 | h1
          exacts [h h1.symm, hc h1]), List.cons_append]

/-- One accumulation step keeps the category keys duplicate-free. -/
theorem keys_nodup_addToCategory (c : CategoryType) (a : Int)
    (l : List (CategoryType × Int)) (h : (l.map Prod.fst).Nodup) :
    ((addToCategory c a l).map Prod.fst).Nodup := by
  rw [keys_addToCategory]
  by_cases hc : c ∈ l.map Prod.fst
  · rw [if_pos hc]
    exact h
  · rw [if_neg hc]
    simp [List.nodup_append, h, hc]

/-- The whole accumulation loop keeps the category keys duplicate-free. -/
theorem keys_nodup_categorySpending_loop (ts : List Transaction)
    (acc : List (CategoryType × Int)) (h : (acc.map Prod.fst).Nodup) :
    (((ts.foldl (fun acc t => addToCategory t.category t.amount acc)
        acc)).map Prod.fst).Nodup := by
  induction ts generalizing acc with
  | nil => exact h
  | cons t rest ih => exact ih _ (keys_nodup_addToCategory _ _ _ h)

/-- The per-category rows of `categorySpending` have duplicate-free
category keys. -/
theorem keys_nodup_categorySpending (ts : List Transaction) :
    ((categorySpending ts).map Prod.fst).Nodup :=
  keys_nodup_categorySpending_loop ts [] (by simp)

/-- In an association list with duplicate-free keys, membership of a pair
determines the stored value. -/
theorem valueOf_of_mem (l : List (CategoryType × Int)) (c : CategoryType)
    (v : Int) (hmem : (c, v) ∈ l) (hnd : (l.map Prod.fst).Nodup) :
    valueOf c l = v := by
  induction l with
  | nil => simp at hmem
  | cons p rest ih =>
    obtain ⟨c1, v1⟩ := p
    simp only [List.map_cons] at hnd
    have hnd' := List.nodup_cons.mp hnd
    rcases List.mem_cons.mp hmem with heq | hmem'
    · cases heq
      exact valueOf_cons_same c v rest
    · have hc1 : c1 ≠ c := by
        rintro rfl
        exact hnd'.1 (List.mem_map.mpr ⟨(c1, v), hmem', rfl⟩)
      rw [valueOf_cons_other c c1 v1 _ hc1]
      exact ih hmem' hnd'.2

/-- C7: spending-by-category groups the user's transactions by category —
duplicate-free keys, each returned total the (rounded) sum of that category's
amounts — the returned totals sum to the sum of all the user's transaction
amounts, and a user with no transactions gets the explicit no-data marker,
which differs from an empty row list. -/
theorem C7_spending_by_category (u : UserId) (s : Store) :
    (userTransactions u s = [] →
      SpendingByCategoryView.get u s = SpendingByCategoryResp.noData) ∧
    (userTransactions u s ≠ [] →
      SpendingByCategoryView.get u s =
        SpendingByCategoryResp.data
          ((categorySpending (userTransactions u s)).map
            fun p => (p.1, round2 p.2))) ∧
    (∀ rows, SpendingByCategoryView.get u s = SpendingByCategoryResp.data rows →
      (rows.map Prod.snd).sum = sumAmounts (userTransactions u s) ∧
      (rows.map Prod.fst).Nodup ∧
      ∀ c v, (c, v) ∈ rows →
        v = round2 (categoryTotal c (userTransactions u s))) ∧
    (∀ rows, SpendingByCategoryResp.noData ≠ SpendingByCategoryResp.data rows) := by
  have hmap : ∀ l : List (CategoryType × Int),
      (l.map fun p => (p.1, round2 p.2)) = l := by
    intro l
    induction l with
    | nil => rfl
    | cons p rest ih =>
      obtain ⟨c, v⟩ := p
      simp [round2, ih]
  have hget : SpendingByCategoryView.get u s =
      if (userTransactions u s).isEmpty then SpendingByCategoryResp.noData
      else SpendingByCategoryResp.data
        ((categorySpending (userTransactions u s)).map
          fun p => (p.1, round2 p.2)) := rfl
  refine ⟨?_, ?_, ?_, ?_⟩
  · intro h
    rw [hget, if_pos (by simp [h])]
  · intro h
    rw [hget, if_neg (by simpa [List.isEmpty_iff] using h)]
  · intro rows hrows
    rw [hget] at hrows
    by_cases he : (userTransactions u s).isEmpty
    · rw [if_pos he] at hrows
      simp at hrows
    · rw [if_neg he] at hrows
      have h1 : categorySpending (userTransactions u s) = rows := by
        rw [← hmap (categorySpending (userTransactions u s))]
        injection hrows
      subst h1
      refine ⟨sum_categorySpending _, keys_nodup_categorySpending _, ?_⟩
      intro c v hcv
      have hv := valueOf_of_mem _ c v hcv (keys_nodup_categorySpending _)
      have h2 := valueOf_categorySpending_loop (userTransactions u s) [] c
      have h0 : valueOf c ([] : List (CategoryType × Int)) = 0 := by
        simp [valueOf]
      rw [round2, ← hv, categorySpending, h2, h0, zero_add]
  · intro rows h
    exact SpendingByCategoryResp.noConfusion h

/-- The chronological order on (year, month) keys is total up to equality. -/
theorem keyLt_trichotomy (a b : Nat × Nat) : a = b ∨ keyLt a b ∨ keyLt b a := by
  obtain ⟨a1, a2⟩ := a
  obtain ⟨b1, b2⟩ := b
  rcases Nat.lt_trichotomy a1 b1 with h | h | h
  · exact Or.inr (Or.inl (Or.inl h))
  · subst h
    rcases Nat.lt_trichotomy a2 b2 with h2 | h2 | h2
    · exact Or.inr (Or.inl (Or.inr ⟨rfl, h2⟩))
    · subst h2
      exact Or.inl rfl
    · exact Or.inr (Or.inr (Or.inr ⟨rfl, h2⟩))
  · exact Or.inr (Or.inr (Or.inl h))

/-- The chronological order on keys is transitive. -/
theorem keyLt_trans {a b c : Nat × Nat} (h1 : keyLt a b) (h2 : keyLt b c) :
    keyLt a c := by
  rcases h1 with h1 | ⟨e1, h1⟩ <;> rcases h2 with h2 | ⟨e2, h2⟩
  · exact Or.inl (lt_trans h1 h2)
  · exact Or.inl (e2 ▸ h1)
  · exact Or.inl (e1 ▸ h2)
  · exact Or.inr ⟨e1.trans e2, lt_trans h1 h2⟩

/-- The chronological order on keys is irreflexive. -/
theorem keyLt_ne {a b : Nat × Nat} (h : keyLt a b) : a ≠ b := by
  rintro rfl
  rcases h with h | ⟨_, h⟩ <;> exact lt_irrefl _ h

/-- Membership after inserting a month key. -/
theorem mem_insertMonthKey (k k0 : Nat × Nat) (l : List (Nat × Nat)) :
    k0 ∈ insertMonthKey k l ↔ k0 = k ∨ k0 ∈ l := by
  induction l with
  | nil => simp [insertMonthKey]
  | cons x rest ih =>
    rw [insertMonthKey]
    by_cases h1 : k = x
    · subst h1
      rw [if_pos rfl]
      simp only [List.mem_cons]
      tauto
    · rw [if_neg h1]
      by_cases h2 : keyLt k x
      · rw [if_pos h2]
        simp only [List.mem_cons]
      · rw [if_neg h2]
        simp only [List.mem_cons, ih]
        tauto

/-- Inserting a month key preserves strict chronological sortedness. -/
theorem pairwise_insertMonthKey (k : Nat × Nat) (l : List (Nat × Nat))
    (h : l.Pairwise keyLt) : (insertMonthKey k l).Pairwise keyLt := by
  induction l with
  | nil => simp [insertMonthKey]
  | cons x rest ih =>
    rcases List.pairwise_cons.mp h with ⟨hx, hrest⟩
    rw [insertMonthKey]
    by_cases h1 : k = x
    · rw [if_pos h1]
      exact h
    · rw [if_neg h1]
      by_cases h2 : keyLt k x
      · rw [if_pos h2]
        refine List.pairwise_cons.mpr ⟨?_, h⟩
        intro y hy
        rcases List.mem_cons.mp hy with rfl | hy'
        · exact h2
        · exact keyLt_trans h2 (hx y hy')
      · rw [if_neg h2]
        refine List.pairwise_cons.mpr ⟨?_, ih hrest⟩
        intro y hy
        rcases (mem_insertMonthKey k y rest).mp hy with heq | hy'
        · rw [heq]
          rcases keyLt_trichotomy k x with h3 | h3 | h3
          · exact absurd h3 h1
          · exact absurd h3 h2
          · exact h3
        · exact hx y hy'

/-- Membership in the keys accumulated by the grouping loop. -/
theorem mem_monthKeys_loop (ts : List Transaction) (acc : List (Nat × Nat))
    (k : Nat × Nat) :
    k ∈ ts.foldl (fun acc t => insertMonthKey (monthKey t) acc) acc ↔
      (∃ t ∈ ts, monthKey t = k) ∨ k ∈ acc := by
  induction ts generalizing acc with
  | nil => simp
  | cons t rest ih =>
    rw [List.foldl_cons, ih, mem_insertMonthKey]
    simp only [List.mem_cons, eq_comm]
    constructor
    · rintro (⟨t', ht', rfl⟩ | (rfl | hacc))
      · exact Or.inl ⟨t', Or.inr ht', rfl⟩
      · exact Or.inl ⟨t, Or.inl rfl, rfl⟩
      · exact Or.inr hacc
    · rintro (⟨t', ht' | ht', rfl⟩ | hacc)
      · exact Or.inr (Or.inl (by rw [ht']))
      · exact Or.inl ⟨t', ht', rfl⟩
      · exact Or.inr (Or.inr hacc)

/-- The grouping loop keeps the accumulated keys strictly sorted. -/
theorem pairwise_monthKeys_loop (ts : List Transaction)
    (acc : List (Nat × Nat)) (h : acc.Pairwise keyLt) :
    (ts.foldl (fun acc t => insertMonthKey (monthKey t) acc) acc).Pairwise
      keyLt := by
  induction ts generalizing acc with
  | nil => exact h
  | cons t rest ih => exact ih _ (pairwise_insertMonthKey _ _ h)

/-- `monthKeys` holds exactly the months in which a transaction occurs. -/
theorem mem_monthKeys (ts : List Transaction) (k : Nat × Nat) :
    k ∈ monthKeys ts ↔ ∃ t ∈ ts, monthKey t = k := by
  rw [monthKeys, mem_monthKeys_loop]
  simp

/-- `monthKeys` is strictly sorted in chronological order. -/
theorem pairwise_monthKeys (ts : List Transaction) :
    (monthKeys ts).Pairwise keyLt :=
  pairwise_monthKeys_loop ts [] (by simp)

/-- C8: total-expenses-over-time has one row per (year, month) holding at
least one of the user's transactions — no others — each row's total is the
sum of that month's amounts, the rows ascend chronologically, and the
response labels each row's key as "YYYY-MM". -/
theorem C8_total_expenses_over_time (u : UserId) (s : Store) :
    (∀ k, k ∈ monthKeys (userTransactions u s) ↔
      ∃ t ∈ userTransactions u s, monthKey t = k) ∧
    (totalExpensesRows u s).Pairwise (fun r1 r2 => keyLt r1.1 r2.1) ∧
    ((totalExpensesRows u s).map Prod.fst).Nodup ∧
    (∀ r ∈ totalExpensesRows u s,
      r.2 = sumAmounts ((userTransactions u s).filter
        fun t => decide (monthKey t = r.1))) ∧
    ((totalExpensesRows u s).map Prod.fst = monthKeys (userTransactions u s)) ∧
    (TotalExpensesOverTimeAPIView.get u s =
      (totalExpensesRows u s).map fun r => (monthLabel r.1, r.2)) := by
  have hkeys : (totalExpensesRows u s).map Prod.fst =
      monthKeys (userTransactions u s) := by
    rw [totalExpensesRows, List.map_map]
    exact List.map_id _
  refine ⟨mem_monthKeys _, ?_, ?_, ?_, hkeys, rfl⟩
  · rw [totalExpensesRows]
    rw [List.pairwise_map]
    exact pairwise_monthKeys _
  · rw [hkeys]
    exact (pairwise_monthKeys _).imp keyLt_ne
  · intro r hr
    rw [totalExpensesRows] at hr
    rcases List.mem_map.mp hr with ⟨k, hk, hrk⟩
    rw [← hrk]

/-- Witness for C1 at the spec's example: budget 500.00 for (6, 2024), create
a 120.50 transaction, spent becomes 120.50 and remaining 379.50. -/
theorem C1_create_updates_current_budget_witness :
    (TransactionView.post ⟨2024, 6, 15⟩ 1
        ⟨some 12050, some CategoryType.Food, none⟩
        ⟨[], [⟨1, 1, 50000, 0, 6, 2024⟩], 1, 2⟩).1 =
      TransactionPostResp.created 1 12050 37950 ∧
    findBudget 1 6 2024
        (TransactionView.post ⟨2024, 6, 15⟩ 1
          ⟨some 12050, some CategoryType.Food, none⟩
          ⟨[], [⟨1, 1, 50000, 0, 6, 2024⟩], 1, 2⟩).2.budgets =
      some ⟨1, 1, 50000, 12050, 6, 2024⟩ :=
  C1_create_updates_current_budget ⟨2024, 6, 15⟩ 1
    ⟨some 12050, some CategoryType.Food, none⟩
    ⟨[], [⟨1, 1, 50000, 0, 6, 2024⟩], 1, 2⟩ 12050 ⟨1, 1, 50000, 0, 6, 2024⟩
    (by decide) rfl rfl

/-- Witness for C2: a May-dated transaction updated in June adjusts the June
budget (wall-clock resolution), spent goes from 120.50 to 200.00. -/
theorem C2_update_adjusts_current_budget_witness :
    (TransactionView.put ⟨2024, 6, 15⟩ 1 1 ⟨some 20000, none, none⟩
        ⟨[⟨1, 1, 12050, CategoryType.Food, none, ⟨2024, 5, 10⟩⟩],
          [⟨1, 1, 50000, 12050, 6, 2024⟩], 2, 2⟩).1 =
      TransactionPutResp.ok 20000 30000 ∧
    findBudget 1 6 2024
        (TransactionView.put ⟨2024, 6, 15⟩ 1 1 ⟨some 20000, none, none⟩
          ⟨[⟨1, 1, 12050, CategoryType.Food, none, ⟨2024, 5, 10⟩⟩],
            [⟨1, 1, 50000, 12050, 6, 2024⟩], 2, 2⟩).2.budgets =
      some ⟨1, 1, 50000, 20000, 6, 2024⟩ ∧
    findTransaction 1 1
        (TransactionView.put ⟨2024, 6, 15⟩ 1 1 ⟨some 20000, none, none⟩
          ⟨[⟨1, 1, 12050, CategoryType.Food, none, ⟨2024, 5, 10⟩⟩],
            [⟨1, 1, 50000, 12050, 6, 2024⟩], 2, 2⟩).2.transactions =
      some ⟨1, 1, 20000, CategoryType.Food, none, ⟨2024, 5, 10⟩⟩ :=
  (C2_update_adjusts_current_budget ⟨2024, 6, 15⟩ 1 1 ⟨some 20000, none, none⟩
      ⟨[⟨1, 1, 12050, CategoryType.Food, none, ⟨2024, 5, 10⟩⟩],
        [⟨1, 1, 50000, 12050, 6, 2024⟩], 2, 2⟩).1
    ⟨1, 1, 12050, CategoryType.Food, none, ⟨2024, 5, 10⟩⟩
    ⟨1, 1, 50000, 12050, 6, 2024⟩ rfl rfl (by decide)

/-- Witness for C3: deleting the 120.50 transaction with the June budget at
120.50 spent returns spent 0.00 and remaining 500.00, and the transaction is
gone. -/
theorem C3_delete_adjusts_current_budget_witness :
    (TransactionView.delete ⟨2024, 6, 15⟩ 1 1
        ⟨[⟨1, 1, 12050, CategoryType.Food, none, ⟨2024, 6, 15⟩⟩],
          [⟨1, 1, 50000, 12050, 6, 2024⟩], 2, 2⟩).1 =
      TransactionDeleteResp.ok 0 50000 ∧
    findBudget 1 6 2024
        (TransactionView.delete ⟨2024, 6, 15⟩ 1 1
          ⟨[⟨1, 1, 12050, CategoryType.Food, none, ⟨2024, 6, 15⟩⟩],
            [⟨1, 1, 50000, 12050, 6, 2024⟩], 2, 2⟩).2.budgets =
      some ⟨1, 1, 50000, 0, 6, 2024⟩ ∧
    findTransaction 1 1
        (TransactionView.delete ⟨2024, 6, 15⟩ 1 1
          ⟨[⟨1, 1, 12050, CategoryType.Food, none, ⟨2024, 6, 15⟩⟩],
            [⟨1, 1, 50000, 12050, 6, 2024⟩], 2, 2⟩).2.transactions = none := by
  have h := (C3_delete_adjusts_current_budget ⟨2024, 6, 15⟩ 1 1
      ⟨[⟨1, 1, 12050, CategoryType.Food, none, ⟨2024, 6, 15⟩⟩],
        [⟨1, 1, 50000, 12050, 6, 2024⟩], 2, 2⟩).1
    ⟨1, 1, 12050, CategoryType.Food, none, ⟨2024, 6, 15⟩⟩
    ⟨1, 1, 50000, 12050, 6, 2024⟩ rfl rfl
  exact ⟨h.1, h.2.1, h.2.2.1⟩

/-- Witness for C4 at the spec's example: no budget for (7, 2024); the
create reports the missing budget, yet the transaction is stored, readable
and listed, and the budget table is untouched. -/
theorem C4_create_without_budget_witness :
    (TransactionView.post ⟨2024, 7, 15⟩ 1 ⟨some 12050, none, none⟩
        ⟨[], [], 1, 1⟩).1 = TransactionPostResp.noBudget ∧
    (TransactionView.post ⟨2024, 7, 15⟩ 1 ⟨some 12050, none, none⟩
        ⟨[], [], 1, 1⟩).2.budgets = [] ∧
    (newTransaction ⟨2024, 7, 15⟩ 1 ⟨some 12050, none, none⟩
        ⟨[], [], 1, 1⟩).amount = 12050 ∧
    TransactionView.getOne 1 1
        (TransactionView.post ⟨2024, 7, 15⟩ 1 ⟨some 12050, none, none⟩
          ⟨[], [], 1, 1⟩).2 =
      TransactionGetResp.found
        ⟨1, 1, 12050, CategoryType.Other, none, ⟨2024, 7, 15⟩⟩ ∧
    (⟨1, 1, 12050, CategoryType.Other, none, ⟨2024, 7, 15⟩⟩ : Transaction) ∈
      TransactionView.list 1
        (TransactionView.post ⟨2024, 7, 15⟩ 1 ⟨some 12050, none, none⟩
          ⟨[], [], 1, 1⟩).2 :=
  C4_create_without_budget ⟨2024, 7, 15⟩ 1 ⟨some 12050, none, none⟩
    ⟨[], [], 1, 1⟩ 12050 (by decide) rfl rfl (by simp)

/-- Witness for C5: with the June 2024 budget in place, a second create for
(1, 6, 2024) is rejected whatever the amount and the store is unchanged. -/
theorem C5_duplicate_budget_rejected_witness :
    BudgetView.post 1 6 2024 99999 ⟨[], [⟨1, 1, 50000, 12050, 6, 2024⟩], 1, 2⟩ =
      (BudgetPostResp.alreadyExists,
        ⟨[], [⟨1, 1, 50000, 12050, 6, 2024⟩], 1, 2⟩) :=
  C5_duplicate_budget_rejected 1 6 2024 99999
    ⟨[], [⟨1, 1, 50000, 12050, 6, 2024⟩], 1, 2⟩
    ⟨1, 1, 50000, 12050, 6, 2024⟩ rfl

/-- Witness for C6: the populated summary for (6, 2024), the zero-filled
success for the budget-less (7, 2024), and the 400 on a non-integer month. -/
theorem C6_summary_zero_fill_and_validation_witness :
    BudgetSummaryView.get ⟨2024, 6, 15⟩ 1 (some "6") (some "2024")
        ⟨[], [⟨1, 1, 50000, 12050, 6, 2024⟩], 1, 2⟩ =
      BudgetSummaryResp.ok 6 2024 50000 12050 37950 ∧
    BudgetSummaryView.get ⟨2024, 6, 15⟩ 1 (some "7") (some "2024")
        ⟨[], [⟨1, 1, 50000, 12050, 6, 2024⟩], 1, 2⟩ =
      BudgetSummaryResp.ok 7 2024 0 0 0 ∧
    BudgetSummaryView.get ⟨2024, 6, 15⟩ 1 (some "x") (some "2024")
        ⟨[], [⟨1, 1, 50000, 12050, 6, 2024⟩], 1, 2⟩ =
      BudgetSummaryResp.invalid :=
  ⟨((C6_summary_zero_fill_and_validation ⟨2024, 6, 15⟩ 1 (some "6")
      (some "2024") ⟨[], [⟨1, 1, 50000, 12050, 6, 2024⟩], 1, 2⟩).2 6 2024
      rfl rfl).1 ⟨1, 1, 50000, 12050, 6, 2024⟩ rfl,
   ((C6_summary_zero_fill_and_validation ⟨2024, 6, 15⟩ 1 (some "7")
      (some "2024") ⟨[], [⟨1, 1, 50000, 12050, 6, 2024⟩], 1, 2⟩).2 7 2024
      rfl rfl).2 rfl,
   (C6_summary_zero_fill_and_validation ⟨2024, 6, 15⟩ 1 (some "x")
      (some "2024") ⟨[], [⟨1, 1, 50000, 12050, 6, 2024⟩], 1, 2⟩).1.mpr
      (Or.inl rfl)⟩

/-- Witness for C7 at the spec's example: 10.00 Food, 5.00 Food and 3.00
Travel yield rows Food 15.00 and Travel 3.00, whose totals sum to the total
of all amounts, and no-data differs from an empty row list. -/
theorem C7_spending_by_category_witness :
    SpendingByCategoryView.get 1
        ⟨[⟨1, 1, 1000, CategoryType.Food, none, ⟨2024, 6, 1⟩⟩,
          ⟨2, 1, 500, CategoryType.Food, none, ⟨2024, 6, 2⟩⟩,
          ⟨3, 1, 300, CategoryType.Travel, none, ⟨2024, 6, 3⟩⟩], [], 4, 1⟩ =
      SpendingByCategoryResp.data
        [(CategoryType.Food, 1500), (CategoryType.Travel, 300)] ∧
    ([(CategoryType.Food, (1500 : Int)), (CategoryType.Travel, 300)].map
        Prod.snd).sum =
      sumAmounts (userTransactions 1
        ⟨[⟨1, 1, 1000, CategoryType.Food, none, ⟨2024, 6, 1⟩⟩,
          ⟨2, 1, 500, CategoryType.Food, none, ⟨2024, 6, 2⟩⟩,
          ⟨3, 1, 300, CategoryType.Travel, none, ⟨2024, 6, 3⟩⟩], [], 4, 1⟩) ∧
    (1500 : Int) = round2 (categoryTotal CategoryType.Food
      (userTransactions 1
        ⟨[⟨1, 1, 1000, CategoryType.Food, none, ⟨2024, 6, 1⟩⟩,
          ⟨2, 1, 500, CategoryType.Food, none, ⟨2024, 6, 2⟩⟩,
          ⟨3, 1, 300, CategoryType.Travel, none, ⟨2024, 6, 3⟩⟩], [], 4, 1⟩)) ∧
    SpendingByCategoryResp.noData ≠ SpendingByCategoryResp.data
      [(CategoryType.Food, 1500), (CategoryType.Travel, 300)] :=
  ⟨by decide,
   ((C7_spending_by_category 1
      ⟨[⟨1, 1, 1000, CategoryType.Food, none, ⟨2024, 6, 1⟩⟩,
        ⟨2, 1, 500, CategoryType.Food, none, ⟨2024, 6, 2⟩⟩,
        ⟨3, 1, 300, CategoryType.Travel, none, ⟨2024, 6, 3⟩⟩], [], 4, 1⟩).2.2.1
      [(CategoryType.Food, 1500), (CategoryType.Travel, 300)] (by decide)).1,
   ((C7_spending_by_category 1
      ⟨[⟨1, 1, 1000, CategoryType.Food, none, ⟨2024, 6, 1⟩⟩,
        ⟨2, 1, 500, CategoryType.Food, none, ⟨2024, 6, 2⟩⟩,
        ⟨3, 1, 300, CategoryType.Travel, none, ⟨2024, 6, 3⟩⟩], [], 4, 1⟩).2.2.1
      [(CategoryType.Food, 1500), (CategoryType.Travel, 300)] (by decide)).2.2
      CategoryType.Food 1500 (by decide),
   (C7_spending_by_category 1
      ⟨[⟨1, 1, 1000, CategoryType.Food, none, ⟨2024, 6, 1⟩⟩,
        ⟨2, 1, 500, CategoryType.Food, none, ⟨2024, 6, 2⟩⟩,
        ⟨3, 1, 300, CategoryType.Travel, none, ⟨2024, 6, 3⟩⟩], [], 4, 1⟩).2.2.2
      [(CategoryType.Food, 1500), (CategoryType.Travel, 300)]⟩

/-- Witness for C8: transactions in May and June 2024 (inserted out of
order) group into ["2024-05" with 5.00, "2024-06" with 13.00], sorted
chronologically. -/
theorem C8_total_expenses_over_time_witness :
    (2024, 5) ∈ monthKeys (userTransactions 1
      ⟨[⟨1, 1, 1000, CategoryType.Food, none, ⟨2024, 6, 1⟩⟩,
        ⟨2, 1, 500, CategoryType.Food, none, ⟨2024, 5, 20⟩⟩,
        ⟨3, 1, 300, CategoryType.Travel, none, ⟨2024, 6, 10⟩⟩], [], 4, 1⟩) ∧
    (500 : Int) = sumAmounts ((userTransactions 1
      ⟨[⟨1, 1, 1000, CategoryType.Food, none, ⟨2024, 6, 1⟩⟩,
        ⟨2, 1, 500, CategoryType.Food, none, ⟨2024, 5, 20⟩⟩,
        ⟨3, 1, 300, CategoryType.Travel, none, ⟨2024, 6, 10⟩⟩], [], 4, 1⟩).filter
      fun t => decide (monthKey t = (2024, 5))) ∧
    monthKeys (userTransactions 1
      ⟨[⟨1, 1, 1000, CategoryType.Food, none, ⟨2024, 6, 1⟩⟩,
        ⟨2, 1, 500, CategoryType.Food, none, ⟨2024, 5, 20⟩⟩,
        ⟨3, 1, 300, CategoryType.Travel, none, ⟨2024, 6, 10⟩⟩], [], 4, 1⟩) =
      [(2024, 5), (2024, 6)] ∧
    TotalExpensesOverTimeAPIView.get 1
      ⟨[⟨1, 1, 1000, CategoryType.Food, none, ⟨2024, 6, 1⟩⟩,
        ⟨2, 1, 500, CategoryType.Food, none, ⟨2024, 5, 20⟩⟩,
        ⟨3, 1, 300, CategoryType.Travel, none, ⟨2024, 6, 10⟩⟩], [], 4, 1⟩ =
      [("2024-05", 500), ("2024-06", 1300)] :=
  ⟨((C8_total_expenses_over_time 1
      ⟨[⟨1, 1, 1000, CategoryType.Food, none, ⟨2024, 6, 1⟩⟩,
        ⟨2, 1, 500, CategoryType.Food, none, ⟨2024, 5, 20⟩⟩,
        ⟨3, 1, 300, CategoryType.Travel, none, ⟨2024, 6, 10⟩⟩], [], 4, 1⟩).1
      (2024, 5)).mpr
      ⟨⟨2, 1, 500, CategoryType.Food, none, ⟨2024, 5, 20⟩⟩, by decide, rfl⟩,
   (C8_total_expenses_over_time 1
      ⟨[⟨1, 1, 1000, CategoryType.Food, none, ⟨2024, 6, 1⟩⟩,
        ⟨2, 1, 500, CategoryType.Food, none, ⟨2024, 5, 20⟩⟩,
        ⟨3, 1, 300, CategoryType.Travel, none, ⟨2024, 6, 10⟩⟩], [], 4, 1⟩).2.2.2.1
      ((2024, 5), 500) (by decide),
   by decide, by decide⟩

/-- Witness for C9: transaction id 1 and budget id 1 both belong to user 2;
for caller 1 every operation answers exactly as for an absent id and leaves
the store unchanged. -/
theorem C9_cross_user_indistinguishable_witness :
    TransactionView.getOne 1 1
        ⟨[⟨1, 2, 1000, CategoryType.Food, none, ⟨2024, 6, 1⟩⟩],
          [⟨1, 2, 50000, 0, 6, 2024⟩], 2, 2⟩ = TransactionGetResp.notFound ∧
    TransactionView.put ⟨2024, 6, 15⟩ 1 1 ⟨some 99, none, none⟩
        ⟨[⟨1, 2, 1000, CategoryType.Food, none, ⟨2024, 6, 1⟩⟩],
          [⟨1, 2, 50000, 0, 6, 2024⟩], 2, 2⟩ =
      (TransactionPutResp.transactionNotFound,
        ⟨[⟨1, 2, 1000, CategoryType.Food, none, ⟨2024, 6, 1⟩⟩],
          [⟨1, 2, 50000, 0, 6, 2024⟩], 2, 2⟩) ∧
    TransactionView.delete ⟨2024, 6, 15⟩ 1 1
        ⟨[⟨1, 2, 1000, CategoryType.Food, none, ⟨2024, 6, 1⟩⟩],
          [⟨1, 2, 50000, 0, 6, 2024⟩], 2, 2⟩ =
      (TransactionDeleteResp.transactionNotFound,
        ⟨[⟨1, 2, 1000, CategoryType.Food, none, ⟨2024, 6, 1⟩⟩],
          [⟨1, 2, 50000, 0, 6, 2024⟩], 2, 2⟩) ∧
    BudgetView.getOne 1 1
        ⟨[⟨1, 2, 1000, CategoryType.Food, none, ⟨2024, 6, 1⟩⟩],
          [⟨1, 2, 50000, 0, 6, 2024⟩], 2, 2⟩ = BudgetGetResp.notFound ∧
    BudgetView.put 1 1 ⟨none, none, none, none⟩
        ⟨[⟨1, 2, 1000, CategoryType.Food, none, ⟨2024, 6, 1⟩⟩],
          [⟨1, 2, 50000, 0, 6, 2024⟩], 2, 2⟩ =
      (BudgetPutResp.notFound,
        ⟨[⟨1, 2, 1000, CategoryType.Food, none, ⟨2024, 6, 1⟩⟩],
          [⟨1, 2, 50000, 0, 6, 2024⟩], 2, 2⟩) ∧
    BudgetView.delete 1 1
        ⟨[⟨1, 2, 1000, CategoryType.Food, none, ⟨2024, 6, 1⟩⟩],
          [⟨1, 2, 50000, 0, 6, 2024⟩], 2, 2⟩ =
      (BudgetDeleteResp.notFound,
        ⟨[⟨1, 2, 1000, CategoryType.Food, none, ⟨2024, 6, 1⟩⟩],
          [⟨1, 2, 50000, 0, 6, 2024⟩], 2, 2⟩) := by
  have h1 := (C9_cross_user_indistinguishable ⟨2024, 6, 15⟩ 1 1 1
      ⟨some 99, none, none⟩ ⟨none, none, none, none⟩
      ⟨[⟨1, 2, 1000, CategoryType.Food, none, ⟨2024, 6, 1⟩⟩],
        [⟨1, 2, 50000, 0, 6, 2024⟩], 2, 2⟩).1 (by decide)
  have h2 := (C9_cross_user_indistinguishable ⟨2024, 6, 15⟩ 1 1 1
      ⟨some 99, none, none⟩ ⟨none, none, none, none⟩
      ⟨[⟨1, 2, 1000, CategoryType.Food, none, ⟨2024, 6, 1⟩⟩],
        [⟨1, 2, 50000, 0, 6, 2024⟩], 2, 2⟩).2 (by decide)
  exact ⟨h1.1, h1.2.1, h1.2.2, h2.1, h2.2.1, h2.2.2⟩

/-- Witness for C10: an update whose amount overflows the decimal field is
rejected with no change, although transaction and budget both exist. -/
theorem C10_invalid_update_changes_nothing_witness :
    TransactionView.put ⟨2024, 6, 15⟩ 1 1 ⟨some 10000000000, none, none⟩
        ⟨[⟨1, 1, 12050, CategoryType.Food, none, ⟨2024, 6, 15⟩⟩],
          [⟨1, 1, 50000, 12050, 6, 2024⟩], 2, 2⟩ =
      (TransactionPutResp.invalid,
        ⟨[⟨1, 1, 12050, CategoryType.Food, none, ⟨2024, 6, 15⟩⟩],
          [⟨1, 1, 50000, 12050, 6, 2024⟩], 2, 2⟩) :=
  C10_invalid_update_changes_nothing ⟨2024, 6, 15⟩ 1 1
    ⟨some 10000000000, none, none⟩
    ⟨[⟨1, 1, 12050, CategoryType.Food, none, ⟨2024, 6, 15⟩⟩],
      [⟨1, 1, 50000, 12050, 6, 2024⟩], 2, 2⟩
    ⟨1, 1, 12050, CategoryType.Food, none, ⟨2024, 6, 15⟩⟩
    ⟨1, 1, 50000, 12050, 6, 2024⟩ rfl rfl (by decide)
